import Mathlib

/-!
Verification of `src/points_to_h3.py` (AmericanRedCross/street-view-starter).

The script is a single linear pipeline (function `main`):
  1. check the input file exists                      (line 59)
  2. check it parses as a geometry dataset            (line 66)
  3. check the geometry-type set contains "Point"     (line 71)
  4. check the score field is among the columns       (line 77)
  5. drop rows whose score is NaN                     (line 86)
  6. if the column dtype `== pd.StringDtype`, coerce  (lines 89-93)
  7. assign every point to an H3 cell                 (line 96)
  8. group by cell and take the mean score            (lines 99-101)
  9. convert each cell id to its boundary polygon     (line 104)
 10. write the result to the output file              (line 107)

Scores are embedded as exact rationals (the script uses floats; the spec's
examples are exact, e.g. mean of 2.0 and 4.0 is 3.0).  The external H3
library (`h3pandas`) is a parameter of the pipeline: a pair of functions
(point to cell id, cell id to boundary ring).  File I/O is embedded as an
association list from paths to file data.
-/

namespace PointsToH3

/-- Value held by an attribute column cell: missing (NaN/None), a number,
or a text value (as stored in a pandas object or string column). -/
inductive ScoreVal where
  | null : ScoreVal
  | num (q : ℚ) : ScoreVal
  | str (s : String) : ScoreVal
deriving DecidableEq, Repr

/-- Predicate behind `Series.isna` for one cell. -/
def ScoreVal.isNull : ScoreVal → Bool
  | .null => true
  | _ => false

/-- True when the value is an actual number. -/
def ScoreVal.isNum : ScoreVal → Bool
  | .num _ => true
  | _ => false

/-- Geometry of one feature, enough to expose `geometry.type` and the
point coordinates used by `geo_to_h3`. -/
inductive Geometry where
  | point (lon lat : ℚ) : Geometry
  | lineString (pts : List (ℚ × ℚ)) : Geometry
  | polygon (ring : List (ℚ × ℚ)) : Geometry
deriving DecidableEq, Repr

/-- The string `gdf.geometry.type` yields for a feature. -/
def Geometry.typeName : Geometry → String
  | .point _ _ => "Point"
  | .lineString _ => "LineString"
  | .polygon _ => "Polygon"

/-- One row of the GeoDataFrame: a geometry plus attribute columns. -/
structure Feature where
  geometry : Geometry
  attrs : List (String × ScoreVal)
deriving DecidableEq, Repr

/-- Value of column `k` in this row (missing column reads as null, the
way a reindexed pandas access yields NaN). -/
def Feature.get (f : Feature) (k : String) : ScoreVal :=
  (f.attrs.lookup k).getD ScoreVal.null

/-- Column dtypes a GeoDataFrame can carry for the score field.  `object`
is what pandas infers for mixed or plain-string data read from a file;
`stringDtype` is the dedicated `pd.StringDtype()` extension dtype. -/
inductive Dtype where
  | float64 : Dtype
  | int64 : Dtype
  | object : Dtype
  | stringDtype : Dtype
deriving DecidableEq, Repr

/-- Right-hand side of a Python `==` against a dtype, as in line 89
`gdf[score_field].dtype == pd.StringDtype`.  The operand can be a string
alias, a dtype instance, or (as written in the source) the class object
`pd.StringDtype` itself. -/
inductive PyEqRhs where
  | pystr (s : String) : PyEqRhs
  | inst (d : Dtype) : PyEqRhs
  | classStringDtype : PyEqRhs
deriving DecidableEq, Repr

/-- String alias pandas accepts for each dtype. -/
def Dtype.alias : Dtype → String
  | .float64 => "float64"
  | .int64 => "int64"
  | .object => "object"
  | .stringDtype => "string"

/-- Python `==` between a dtype instance and another operand, following
`pandas.api.extensions.ExtensionDtype.__eq__` (and the matching numpy
dtype rich comparison): a string operand is resolved to a dtype and
compared; a dtype instance is compared structurally; any other object is
equal only if it is an instance of the dtype's own type.  The class
object `pd.StringDtype` is a type, not an instance, so `isinstance`
fails and the comparison is False for every dtype. -/
def dtypePyEq (self : Dtype) (other : PyEqRhs) : Bool :=
  match other with
  | .pystr s => self.alias == s
  | .inst d => self == d
  | .classStringDtype => false

/-- A feature collection as loaded by `gpd.read_file`: the attribute
schema (column names), the inferred dtype per column, and the rows. -/
structure FeatureCollection where
  columns : List String
  colDtypes : List (String × Dtype)
  features : List Feature
deriving DecidableEq, Repr

/-- Dtype of a column (pandas infers `object` when nothing else fits). -/
def FeatureCollection.dtypeOf (fc : FeatureCollection) (k : String) : Dtype :=
  (fc.colDtypes.lookup k).getD Dtype.object

/-- Error taxonomy of the pipeline, named as in the specification.
`inputNotFound` is the ValueError of line 62, `unreadableGeometry` the
re-raised read error of line 68, `noPointGeometry` the exception of line
74, `missingScoreField` the exception of line 80, `scoreCoercionError`
the exception of line 93.  `cellAssignError` and `aggregationTypeError`
model the library errors `geo_to_h3` and the mean aggregation raise when
a row has no point coordinates resp. a non-numeric score. -/
inductive PipelineError where
  | inputNotFound : PipelineError
  | unreadableGeometry : PipelineError
  | noPointGeometry : PipelineError
  | missingScoreField : PipelineError
  | scoreCoercionError : PipelineError
  | cellAssignError : PipelineError
  | aggregationTypeError : PipelineError
deriving DecidableEq, Repr

/-- Line 71: "Point" is a member of `gdf.geometry.type.unique()`. -/
def hasPointGeometry (fc : FeatureCollection) : Bool :=
  ((fc.features.map fun f => f.geometry.typeName).dedup).contains "Point"

/-- Row filter of line 86: keep rows whose score cell is not NaN. -/
def nonNullScore (sf : String) (f : Feature) : Bool :=
  !(f.get sf).isNull

/-- Line 86: `gdf = gdf[~gdf[score_field].isna()]`. -/
def dropNullScores (fc : FeatureCollection) (sf : String) : FeatureCollection :=
  { fc with features := fc.features.filter (nonNullScore sf) }

/-- One decimal-digit group, as `pd.to_numeric` reads it. -/
def parseNatDigits (cs : List Char) : Option ℕ :=
  if cs.isEmpty then none
  else cs.foldlM (fun acc c => if c.isDigit then some (acc * 10 + (c.toNat - 48)) else none) 0

/-- Numeric parse of one text cell, modelling `pd.to_numeric` on a single
string: optional sign, integer digits, optional fractional digits. -/
def pyToNumeric (s : String) : Option ℚ :=
  let core : List Char → Option ℚ := fun cs =>
    match cs.span (fun c => c != '.') with
    | (intCs, []) => (parseNatDigits intCs).map (fun n => (n : ℚ))
    | (intCs, _ :: fracCs) =>
      match parseNatDigits intCs, parseNatDigits fracCs with
      | some n, some f => some ((n : ℚ) + (f : ℚ) / ((10 : ℚ) ^ fracCs.length))
      | _, _ => none
  match s.data with
  | '-' :: rest => (core rest).map (fun q => -q)
  | '+' :: rest => core rest
  | rest => core rest

/-- Coercion of one score cell by `pd.to_numeric` (line 91): numbers and
NaN pass through, text must parse. -/
def coerceScore : ScoreVal → Option ScoreVal
  | .null => some ScoreVal.null
  | .num q => some (ScoreVal.num q)
  | .str s => (pyToNumeric s).map ScoreVal.num

/-- Overwrite column `k` of a row (assignment of line 91). -/
def Feature.setAttr (f : Feature) (k : String) (v : ScoreVal) : Feature :=
  { f with attrs := f.attrs.map (fun p => if p.1 == k then (p.1, v) else p) }

/-- Coerce the score column of one row. -/
def coerceFeature (sf : String) (f : Feature) : Option Feature :=
  (coerceScore (f.get sf)).map (f.setAttr sf)

/-- Apply a fallible per-row function to every row; the whole pass fails
as soon as one row does (how a raised library exception aborts a pandas
column operation). -/
def traverseOption {α β : Type} (g : α → Option β) : List α → Option (List β)
  | [] => some []
  | a :: l =>
    match g a, traverseOption g l with
    | some b, some bs => some (b :: bs)
    | _, _ => none

/-- Lines 85-93, the Score Normalizer: drop NaN-score rows, then, when
the column dtype compares equal to the class object `pd.StringDtype`
(line 89, note: the class, not an instance), run `pd.to_numeric` over the
column and fail with the coercion error when a value does not parse. -/
def normalizeScores (fc : FeatureCollection) (sf : String) :
    Except PipelineError FeatureCollection :=
  let fc1 := dropNullScores fc sf
  if dtypePyEq (fc.dtypeOf sf) PyEqRhs.classStringDtype then
    match traverseOption (coerceFeature sf) fc1.features with
    | some fs => Except.ok { fc1 with features := fs }
    | none => Except.error PipelineError.scoreCoercionError
  else
    Except.ok fc1

/-- The external H3 capability used through `h3pandas`: `geoToH3` maps
(resolution, longitude, latitude) to a cell id, `cellBoundary` maps a
cell id to its boundary ring. -/
structure H3Lib where
  geoToH3 : ℕ → ℚ → ℚ → String
  cellBoundary : String → List (ℚ × ℚ)

/-- Cell id of one row at the given resolution; `geo_to_h3` reads the
point coordinates, so a row without point geometry has none. -/
def featureCell (lib : H3Lib) (res : ℕ) (f : Feature) : Option String :=
  match f.geometry with
  | .point lon lat => some (lib.geoToH3 res lon lat)
  | _ => none

/-- Line 96, the Cell Assigner: every row gets its cell id; a row whose
geometry carries no point coordinates makes the library call fail. -/
def assignCells (lib : H3Lib) (res : ℕ) (rows : List Feature) :
    Except PipelineError (List (String × Feature)) :=
  match traverseOption (fun f => (featureCell lib res f).map (fun c => (c, f))) rows with
  | some l => Except.ok l
  | none => Except.error PipelineError.cellAssignError

/-- Numeric reading of a cell, when it has one. -/
def ScoreVal.toRat : ScoreVal → Option ℚ
  | .num q => some q
  | _ => none

/-- Score column of the assigned rows as rationals; the mean aggregation
of line 99 raises on a non-numeric cell. -/
def extractScores (sf : String) (rows : List (String × Feature)) :
    Except PipelineError (List (String × ℚ)) :=
  match traverseOption (fun p => ((p.2.get sf).toRat).map (fun q => (p.1, q))) rows with
  | some l => Except.ok l
  | none => Except.error PipelineError.aggregationTypeError

/-- Arithmetic mean. -/
def meanQ (xs : List ℚ) : ℚ :=
  xs.sum / (xs.length : ℚ)

/-- Scores of the rows assigned to cell `k`. -/
def groupScores (l : List (String × ℚ)) (k : String) : List ℚ :=
  (l.filter (fun p => p.1 == k)).map Prod.snd

/-- Lines 99-101, the Aggregator: group the (cell id, score) rows by
cell id and take the mean score of each group.  Pandas `groupby` sorts
the group keys; only the set of keys matters here, so the embedding
lists each distinct observed key once (via `dedup`) without fixing the
order. -/
def aggregateMean (l : List (String × ℚ)) : List (String × ℚ) :=
  (l.map Prod.fst).dedup.map (fun k => (k, meanQ (groupScores l k)))

/-- Line 104 plus the write of line 107: each aggregate row becomes a
polygon feature (the cell boundary from the H3 library) carrying the
mean score in the score column. -/
def outputCollection (lib : H3Lib) (sf : String) (aggs : List (String × ℚ)) :
    FeatureCollection :=
  { columns := [sf]
    colDtypes := [(sf, Dtype.float64)]
    features := aggs.map (fun p =>
      { geometry := Geometry.polygon (lib.cellBoundary p.1)
        attrs := [(sf, ScoreVal.num p.2)] }) }

/-- Everything `main` does after the file has been read: the point check
of line 71, the column check of line 77, the Score Normalizer, the Cell
Assigner, the Aggregator, the Boundary Materializer.  The source re-reads
the input file before each check (lines 66, 71, 77, 83); reading is
deterministic, so the embedding reads once and reuses the collection. -/
def pipelineCore (lib : H3Lib) (fc : FeatureCollection) (sf : String) (res : ℕ) :
    Except PipelineError FeatureCollection :=
  if hasPointGeometry fc then
    if fc.columns.contains sf then
      match normalizeScores fc sf with
      | .error e => Except.error e
      | .ok fcN =>
        match assignCells lib res fcN.features with
        | .error e => Except.error e
        | .ok assigned =>
          match extractScores sf assigned with
          | .error e => Except.error e
          | .ok pairs => Except.ok (outputCollection lib sf (aggregateMean pairs))
    else Except.error PipelineError.missingScoreField
  else Except.error PipelineError.noPointGeometry

/-- Contents of a path: a parseable geometry dataset, or bytes
`gpd.read_file` rejects. -/
inductive FileData where
  | geo (fc : FeatureCollection) : FileData
  | raw (s : String) : FileData
deriving DecidableEq, Repr

/-- The file system the script touches, as a path-to-data map. -/
structure FileSystem where
  files : List (String × FileData)
deriving DecidableEq, Repr

/-- Read a path (None when the path does not exist). -/
def FileSystem.read (fs : FileSystem) (p : String) : Option FileData :=
  fs.files.lookup p

/-- Write a path (`to_file`, line 107). -/
def FileSystem.write (fs : FileSystem) (p : String) (d : FileData) : FileSystem :=
  { files := (p, d) :: fs.files }

/-- The whole of `main` (lines 58-107): existence check, readability
check, then the core pipeline; on success the output collection is
written to the output path, on failure the error is raised and the file
system is untouched by the script. -/
def run (lib : H3Lib) (fs : FileSystem) (inputFile sf outputFile : String)
    (res : ℕ) : Option PipelineError × FileSystem :=
  match fs.read inputFile with
  | none => (some PipelineError.inputNotFound, fs)
  | some (.raw _) => (some PipelineError.unreadableGeometry, fs)
  | some (.geo fc) =>
    match pipelineCore lib fc sf res with
    | .error e => (some e, fs)
    | .ok outFc => (none, fs.write outputFile (FileData.geo outFc))

/-- Default of the `cell_resolution` CLI argument (line 40). -/
def defaultCellResolution : ℕ := 10

/-- The typer command: an omitted resolution argument runs `main` with
the declared default. -/
def runCLI (lib : H3Lib) (fs : FileSystem) (inputFile sf outputFile : String)
    (resArg : Option ℕ) : Option PipelineError × FileSystem :=
  run lib fs inputFile sf outputFile (resArg.getD defaultCellResolution)

/-! Concrete instances used by the example runs and witnesses. -/

/-- A concrete H3 capability: every point falls in the cell "cell0" and
every cell has a fixed triangular boundary.  Enough for inputs whose
points are meant to share one cell. -/
def lib0 : H3Lib :=
  { geoToH3 := fun _ _ _ => "cell0"
    cellBoundary := fun _ => [(0, 0), (1, 0), (0, 1)] }

/-- A point row carrying a numeric score. -/
def pointFeature (lon lat score : ℚ) : Feature :=
  { geometry := Geometry.point lon lat
    attrs := [("score", ScoreVal.num score)] }

/-- The spec's synthetic input: two points in the same cell, scores 2.0
and 4.0. -/
def fcTwoPoints : FeatureCollection :=
  { columns := ["score"]
    colDtypes := [("score", Dtype.float64)]
    features := [pointFeature 0 0 2, pointFeature 1 1 4] }

def fsTwoPoints : FileSystem :=
  { files := [("in.geojson", FileData.geo fcTwoPoints)] }

/-- Expected output for `fcTwoPoints`: one polygon feature, mean 3.0. -/
def outTwoPoints : FeatureCollection :=
  { columns := ["score"]
    colDtypes := [("score", Dtype.float64)]
    features := [{ geometry := Geometry.polygon [(0, 0), (1, 0), (0, 1)]
                   attrs := [("score", ScoreVal.num 3)] }] }

/-- One point, score 2. -/
def fcOnePoint : FeatureCollection :=
  { columns := ["score"]
    colDtypes := [("score", Dtype.float64)]
    features := [pointFeature 0 0 2] }

def fsOnePoint : FileSystem :=
  { files := [("in.geojson", FileData.geo fcOnePoint)] }

/-- Expected output for `fcOnePoint`: one polygon feature, mean 2. -/
def outOnePoint : FeatureCollection :=
  { columns := ["score"]
    colDtypes := [("score", Dtype.float64)]
    features := [{ geometry := Geometry.polygon [(0, 0), (1, 0), (0, 1)]
                   attrs := [("score", ScoreVal.num 2)] }] }

/-- Two rows, one with a missing score. -/
def fcWithNull : FeatureCollection :=
  { columns := ["score"]
    colDtypes := [("score", Dtype.float64)]
    features := [pointFeature 0 0 2,
                 { geometry := Geometry.point 1 1
                   attrs := [("score", ScoreVal.null)] }] }

/-- One line-string row, no point geometry, no score column. -/
def fcLine : FeatureCollection :=
  { columns := ["other"]
    colDtypes := [("other", Dtype.float64)]
    features := [{ geometry := Geometry.lineString [(0, 0), (1, 1)]
                   attrs := [("other", ScoreVal.num 1)] }] }

def fsLine : FileSystem :=
  { files := [("in.geojson", FileData.geo fcLine)] }

/-- A point row whose schema lacks the score column. -/
def fcPointNoField : FeatureCollection :=
  { columns := ["other"]
    colDtypes := []
    features := [pointFeature 0 0 2] }

def fsPointNoField : FileSystem :=
  { files := [("in.geojson", FileData.geo fcPointNoField)] }

/-- One point row whose score column holds the text "5" in an
object-dtype column (what `read_file` infers for textual data). -/
def fcStr5 : FeatureCollection :=
  { columns := ["score"]
    colDtypes := [("score", Dtype.object)]
    features := [{ geometry := Geometry.point 0 0
                   attrs := [("score", ScoreVal.str "5")] }] }

/-- One point row whose score column holds the unparseable text "abc" in
a column declared with the pandas string dtype. -/
def fcAbc : FeatureCollection :=
  { columns := ["score"]
    colDtypes := [("score", Dtype.stringDtype)]
    features := [{ geometry := Geometry.point 0 0
                   attrs := [("score", ScoreVal.str "abc")] }] }

/-- A file system holding only a stale file at the output path. -/
def fsStale : FileSystem :=
  { files := [("out.geojson", FileData.raw "stale")] }

/-! Helper lemmas shared by the claim theorems. -/

/-- The guard of line 89 compares a dtype instance to the class object
`pd.StringDtype` and therefore never holds, so the Score Normalizer is
exactly the NaN filter of line 86. -/
theorem normalizeScores_eq_ok (fc : FeatureCollection) (sf : String) :
    normalizeScores fc sf = Except.ok (dropNullScores fc sf) := by
  simp [normalizeScores, dtypePyEq]

/-- The Cell Assigner fails only with its own error. -/
theorem assignCells_error_eq (lib : H3Lib) (res : ℕ) (rows : List Feature)
    (e : PipelineError) (h : assignCells lib res rows = Except.error e) :
    e = PipelineError.cellAssignError := by
  unfold assignCells at h
  rcases hm : traverseOption (fun f => (featureCell lib res f).map (fun c => (c, f))) rows with
    _ | l <;> rw [hm] at h <;> simp_all

/-- The score extraction of the Aggregator fails only with its own
error. -/
theorem extractScores_error_eq (sf : String) (rows : List (String × Feature))
    (e : PipelineError) (h : extractScores sf rows = Except.error e) :
    e = PipelineError.aggregationTypeError := by
  unfold extractScores at h
  rcases hm : traverseOption (fun p => ((p.2.get sf).toRat).map (fun q => (p.1, q))) rows with
    _ | l <;> rw [hm] at h <;> simp_all

/-- The core pipeline with the (unreachable) coercion branch folded
away. -/
theorem pipelineCore_eq (lib : H3Lib) (fc : FeatureCollection) (sf : String) (res : ℕ) :
    pipelineCore lib fc sf res =
      if hasPointGeometry fc then
        if fc.columns.contains sf then
          match assignCells lib res (dropNullScores fc sf).features with
          | .error e => Except.error e
          | .ok assigned =>
            match extractScores sf assigned with
            | .error e => Except.error e
            | .ok pairs => Except.ok (outputCollection lib sf (aggregateMean pairs))
        else Except.error PipelineError.missingScoreField
      else Except.error PipelineError.noPointGeometry := by
  unfold pipelineCore
  rw [normalizeScores_eq_ok]

/-- Reading back the path just written. -/
theorem read_write_self (fs : FileSystem) (p : String) (d : FileData) :
    (fs.write p d).read p = some d := by
  simp [FileSystem.read, FileSystem.write, List.lookup]

/-- Writing one path leaves every other path unchanged. -/
theorem read_write_ne (fs : FileSystem) (p : String) (d : FileData) (q : String)
    (h : q ≠ p) : (fs.write p d).read q = fs.read q := by
  have hb : (q == p) = false := beq_eq_false_iff_ne.mpr h
  simp [FileSystem.read, FileSystem.write, List.lookup, hb]

/-- Unfolding the run once the input file is known to hold a geometry
collection. -/
theorem run_read_geo (lib : H3Lib) (fs : FileSystem) (input sf output : String)
    (res : ℕ) (fc : FeatureCollection)
    (h : fs.read input = some (FileData.geo fc)) :
    run lib fs input sf output res =
      match pipelineCore lib fc sf res with
      | .error e => (some e, fs)
      | .ok outFc => (none, fs.write output (FileData.geo outFc)) := by
  unfold run
  rw [h]

/-- Exhaustive list of the errors the core pipeline can raise. -/
theorem pipelineCore_error_cases (lib : H3Lib) (fc : FeatureCollection)
    (sf : String) (res : ℕ) (e : PipelineError)
    (h : pipelineCore lib fc sf res = Except.error e) :
    e = PipelineError.noPointGeometry ∨ e = PipelineError.missingScoreField
    ∨ e = PipelineError.cellAssignError ∨ e = PipelineError.aggregationTypeError := by
  rw [pipelineCore_eq] at h
  cases hpt : hasPointGeometry fc <;> rw [hpt] at h
  · simp at h
    exact Or.inl h.symm
  · simp only [if_true] at h
    cases hcol : fc.columns.contains sf <;> rw [hcol] at h
    · simp at h
      exact Or.inr (Or.inl h.symm)
    · simp only [if_true] at h
      rcases ha : assignCells lib res (dropNullScores fc sf).features with e1 | assigned <;>
        rw [ha] at h <;> dsimp only at h
      · simp at h
        exact Or.inr (Or.inr (Or.inl (h ▸ assignCells_error_eq _ _ _ _ ha)))
      · rcases hx : extractScores sf assigned with e2 | pairs <;>
          rw [hx] at h <;> dsimp only at h
        · simp at h
          exact Or.inr (Or.inr (Or.inr (h ▸ extractScores_error_eq _ _ _ hx)))
        · simp at h

/-- The core pipeline reports the missing-point error exactly on inputs
without a point feature. -/
theorem pipelineCore_noPoint_iff (lib : H3Lib) (fc : FeatureCollection)
    (sf : String) (res : ℕ) :
    (pipelineCore lib fc sf res = Except.error PipelineError.noPointGeometry)
    ↔ hasPointGeometry fc = false := by
  constructor
  · intro h
    cases hpt : hasPointGeometry fc
    · rfl
    · rw [pipelineCore_eq, hpt] at h
      simp only [if_true] at h
      cases hcol : fc.columns.contains sf <;> rw [hcol] at h
      · simp at h
      · simp only [if_true] at h
        rcases ha : assignCells lib res (dropNullScores fc sf).features with e1 | assigned <;>
          rw [ha] at h <;> dsimp only at h
        · have := assignCells_error_eq _ _ _ _ ha
          simp [this] at h
        · rcases hx : extractScores sf assigned with e2 | pairs <;>
            rw [hx] at h <;> dsimp only at h
          · have := extractScores_error_eq _ _ _ hx
            simp [this] at h
          · simp at h
  · intro h
    rw [pipelineCore_eq, h]
    simp

/-! Claim theorems. -/

/-- C9: when the caller omits the cell-resolution argument, the CLI runs
the pipeline with the declared default, resolution 10 (line 40). -/
theorem omitted_resolution_runs_at_ten :
    defaultCellResolution = 10
    ∧ ∀ (lib : H3Lib) (fs : FileSystem) (input sf output : String),
        runCLI lib fs input sf output none = run lib fs input sf output 10 :=
  ⟨rfl, fun _ _ _ _ _ => rfl⟩

/-- C10: the guard of line 89 compares the column dtype instance to the
class object `pd.StringDtype`, which no dtype instance equals, so the
numeric-coercion branch is never taken: the Score Normalizer is exactly
the NaN filter of line 86 (score values pass through unconverted, also
for string-valued columns) and no run ever fails with
ScoreCoercionError. -/
theorem coercion_branch_never_taken :
    (∀ d : Dtype, dtypePyEq d PyEqRhs.classStringDtype = false)
    ∧ (∀ (fc : FeatureCollection) (sf : String),
        normalizeScores fc sf = Except.ok (dropNullScores fc sf))
    ∧ (∀ (lib : H3Lib) (fs : FileSystem) (input sf output : String) (res : ℕ),
        (run lib fs input sf output res).1 ≠ some PipelineError.scoreCoercionError) := by
  refine ⟨fun d => rfl, normalizeScores_eq_ok, ?_⟩
  intro lib fs input sf output res
  unfold run
  cases hrd : fs.read input with
  | none => simp
  | some dt =>
    cases dt with
    | raw s => simp
    | geo fc =>
      dsimp only
      rcases hc : pipelineCore lib fc sf res with e | outFc <;> dsimp only
      · intro hcontra
        simp only [Option.some.injEq] at hcontra
        rcases pipelineCore_error_cases lib fc sf res e hc with h | h | h | h <;>
          simp [h] at hcontra
      · simp

/-- Witness: the no-coercion fact at one concrete run. -/
theorem coercion_branch_never_taken_witness :
    (run lib0 fsStale "in.geojson" "score" "out.geojson" 10).1
      ≠ some PipelineError.scoreCoercionError :=
  coercion_branch_never_taken.2.2 lib0 fsStale "in.geojson" "score" "out.geojson" 10

/-- C7 counterexample: a failing run leaves a pre-existing file at the
output path untouched, so failure does not imply that the output file is
absent. -/
theorem failed_run_output_file_remains :
    (run lib0 fsStale "in.geojson" "score" "out.geojson" 10).1
      = some PipelineError.inputNotFound
    ∧ ((run lib0 fsStale "in.geojson" "score" "out.geojson" 10).2.read
        "out.geojson").isSome = true := by
  decide

/-- C7 (amended): every run either completes all stages and performs
exactly one write — the output collection at the output path — or fails
with an error having performed no write, so the file system (and in
particular whatever was already at the output path) is exactly as it
was. -/
theorem run_single_write_or_untouched (lib : H3Lib) (fs : FileSystem)
    (input sf output : String) (res : ℕ) :
    (∃ outFc, run lib fs input sf output res
        = (none, fs.write output (FileData.geo outFc)))
    ∨ ((run lib fs input sf output res).1.isSome = true
        ∧ (run lib fs input sf output res).2 = fs) := by
  unfold run
  cases hrd : fs.read input with
  | none => right; simp
  | some dt =>
    cases dt with
    | raw s => right; simp
    | geo fc =>
      dsimp only
      rcases hc : pipelineCore lib fc sf res with e | outFc <;> dsimp only
      · right; simp
      · left; exact ⟨outFc, rfl⟩

/-- C3 (code bug): a validated input whose object-dtype score column
holds the text "5" survives the Score Normalizer unchanged and enters
the Cell Assigner with a non-null but non-numeric score: the coercion
guard of line 89 never fires, contradicting the stated invariant (and
the comment of line 88, "Check score field is numeric - if not,
convert"). -/
theorem string_score_survives_normalizer_unconverted :
    hasPointGeometry fcStr5 = true
    ∧ fcStr5.columns.contains "score" = true
    ∧ normalizeScores fcStr5 "score" = Except.ok fcStr5
    ∧ (fcStr5.features.map fun f => f.get "score") = [ScoreVal.str "5"]
    ∧ (fcStr5.features.map fun f => (f.get "score").isNum) = [false] :=
  ⟨rfl, rfl, rfl, rfl, rfl⟩

/-- C4 (code bug): with the score column declared as the pandas string
dtype and carrying the unparseable value "abc", the Score Normalizer
raises no ScoreCoercionError and leaves the value untouched: the guard
of line 89 compares against the class object and misses even the string
dtype instance, contradicting the claimed if-and-only-if failure. -/
theorem string_dtype_unparseable_not_rejected :
    fcAbc.dtypeOf "score" = Dtype.stringDtype
    ∧ dtypePyEq (fcAbc.dtypeOf "score") PyEqRhs.classStringDtype = false
    ∧ pyToNumeric "abc" = none
    ∧ coerceScore (ScoreVal.str "abc") = none
    ∧ normalizeScores fcAbc "score" = Except.ok fcAbc :=
  ⟨rfl, rfl, rfl, rfl, rfl⟩

/-- Group keys of the aggregate are the distinct observed cell ids. -/
theorem aggregateMean_keys (l : List (String × ℚ)) :
    (aggregateMean l).map Prod.fst = (l.map Prod.fst).dedup := by
  simp only [aggregateMean, List.map_map]
  have : (Prod.fst ∘ fun k => (k, meanQ (groupScores l k))) = fun k : String => k := rfl
  rw [this, List.map_id']

/-- C1: the Aggregator emits exactly one aggregate record per distinct
observed cell id, scored with the arithmetic mean of its group; on the
synthetic two-point input with scores 2.0 and 4.0 in one cell, the run
writes exactly one aggregate record for that cell with mean 3.0. -/
theorem aggregator_one_mean_record_per_cell :
    (∀ l : List (String × ℚ),
      ((aggregateMean l).map Prod.fst).Nodup
      ∧ (∀ k, k ∈ (aggregateMean l).map Prod.fst ↔ k ∈ l.map Prod.fst)
      ∧ (∀ k m, (k, m) ∈ aggregateMean l → m = meanQ (groupScores l k)))
    ∧ run lib0 fsTwoPoints "in.geojson" "score" "out.geojson" 10
        = (none, fsTwoPoints.write "out.geojson" (FileData.geo outTwoPoints)) := by
  constructor
  · intro l
    refine ⟨?_, ?_, ?_⟩
    · rw [aggregateMean_keys]
      exact List.nodup_dedup _
    · intro k
      rw [aggregateMean_keys]
      exact List.mem_dedup
    · intro k m hm
      simp only [aggregateMean] at hm
      rcases List.mem_map.mp hm with ⟨k2, hk2, heq⟩
      injection heq with h1 h2
      subst h1
      exact h2.symm
  · have h1 : run lib0 fsTwoPoints "in.geojson" "score" "out.geojson" 10
        = (none, fsTwoPoints.write "out.geojson"
            (FileData.geo (outputCollection lib0 "score"
              (aggregateMean [("cell0", 2), ("cell0", 4)])))) := rfl
    rw [h1]
    norm_num [aggregateMean, meanQ, groupScores, outputCollection, outTwoPoints, lib0]

/-- Witness: the mean property of the aggregator at a concrete group. -/
theorem aggregator_one_mean_record_per_cell_witness :
    (2 : ℚ) = meanQ (groupScores [("a", (2 : ℚ))] "a") :=
  (aggregator_one_mean_record_per_cell.1 _).2.2 "a" 2
    (by simp [aggregateMean, meanQ, groupScores])

/-- C2: the Score Normalizer removes exactly the records with a
null/missing score and adds none: its output is a sublist of the input,
every survivor has a non-null score, and the surviving count never
exceeds the number of non-null-score input records. -/
theorem normalizer_drops_only_null_scores (fc : FeatureCollection) (sf : String)
    (fcN : FeatureCollection) (h : normalizeScores fc sf = Except.ok fcN) :
    fcN.features.Sublist fc.features
    ∧ (∀ f ∈ fcN.features, nonNullScore sf f = true)
    ∧ fcN.features.length ≤ fc.features.countP (nonNullScore sf) := by
  rw [normalizeScores_eq_ok] at h
  have hN : fcN = dropNullScores fc sf := (Except.ok.inj h).symm
  subst hN
  refine ⟨List.filter_sublist _, ?_, ?_⟩
  · intro f hf
    exact (List.mem_filter.mp hf).2
  · rw [List.countP_eq_length_filter]
    exact le_refl _

/-- Witness: the normalizer facts at a two-row input with one null
score. -/
theorem normalizer_drops_only_null_scores_witness :
    (dropNullScores fcWithNull "score").features.Sublist fcWithNull.features
    ∧ (∀ f ∈ (dropNullScores fcWithNull "score").features,
        nonNullScore "score" f = true)
    ∧ (dropNullScores fcWithNull "score").features.length
        ≤ fcWithNull.features.countP (nonNullScore "score") :=
  normalizer_drops_only_null_scores fcWithNull "score" _ rfl

/-- C5: for a readable input, the run fails with NoPointGeometry exactly
when the collection's geometry-type set contains no "Point" (so a mixed
collection with at least one point feature passes the check), and on
that failure it stops with the file system untouched, before any
aggregation. -/
theorem no_point_geometry_check (lib : H3Lib) (fs : FileSystem)
    (input sf output : String) (res : ℕ) (fc : FeatureCollection)
    (h : fs.read input = some (FileData.geo fc)) :
    ((run lib fs input sf output res).1 = some PipelineError.noPointGeometry
      ↔ hasPointGeometry fc = false)
    ∧ (hasPointGeometry fc = false →
        run lib fs input sf output res = (some PipelineError.noPointGeometry, fs)) := by
  rw [run_read_geo lib fs input sf output res fc h]
  constructor
  · constructor
    · intro h1
      rcases hc : pipelineCore lib fc sf res with e | outFc <;>
        rw [hc] at h1 <;> dsimp only at h1
      · simp only [Option.some.injEq] at h1
        subst h1
        exact (pipelineCore_noPoint_iff lib fc sf res).mp hc
      · simp at h1
    · intro h1
      rw [(pipelineCore_noPoint_iff lib fc sf res).mpr h1]
  · intro h1
    rw [(pipelineCore_noPoint_iff lib fc sf res).mpr h1]

/-- Witness: the point-geometry check at a line-string-only input. -/
theorem no_point_geometry_check_witness :
    (((run lib0 fsLine "in.geojson" "score" "out.geojson" 10).1
        = some PipelineError.noPointGeometry)
      ↔ hasPointGeometry fcLine = false)
    ∧ (hasPointGeometry fcLine = false →
        run lib0 fsLine "in.geojson" "score" "out.geojson" 10
          = (some PipelineError.noPointGeometry, fsLine)) :=
  no_point_geometry_check lib0 fsLine "in.geojson" "score" "out.geojson" 10 fcLine rfl

/-- C6 counterexample: an input whose schema lacks the score field but
which also contains no point feature fails with NoPointGeometry, not
MissingScoreField: the point-geometry check of line 71 runs first. -/
theorem missing_field_without_point_fails_differently :
    fcLine.columns.contains "score" = false
    ∧ (run lib0 fsLine "in.geojson" "score" "out.geojson" 10).1
        = some PipelineError.noPointGeometry
    ∧ decide ((run lib0 fsLine "in.geojson" "score" "out.geojson" 10).1
        = some PipelineError.missingScoreField) = false := by
  decide

/-- C6 (amended): for every readable input that passes the
point-geometry check and whose attribute schema lacks the caller's score
field, the run fails with MissingScoreField before any aggregation,
leaving the file system untouched. -/
theorem missing_score_field_when_point_present (lib : H3Lib) (fs : FileSystem)
    (input sf output : String) (res : ℕ) (fc : FeatureCollection)
    (hread : fs.read input = some (FileData.geo fc))
    (hpt : hasPointGeometry fc = true)
    (habs : fc.columns.contains sf = false) :
    run lib fs input sf output res = (some PipelineError.missingScoreField, fs) := by
  rw [run_read_geo lib fs input sf output res fc hread, pipelineCore_eq, hpt, habs]
  simp

/-- Witness: a point feature without the score column. -/
theorem missing_score_field_when_point_present_witness :
    run lib0 fsPointNoField "in.geojson" "score" "out.geojson" 10
      = (some PipelineError.missingScoreField, fsPointNoField) :=
  missing_score_field_when_point_present lib0 fsPointNoField "in.geojson" "score"
    "out.geojson" 10 fcPointNoField rfl (by decide) (by decide)

/-- C8: the pipeline is deterministic and idempotent: after a successful
run, running again with the same input file, score field, resolution and
output path succeeds and writes identical output content. -/
theorem run_idempotent (lib : H3Lib) (fs : FileSystem) (input sf output : String)
    (res : ℕ) (fs1 : FileSystem) (hne : input ≠ output)
    (h1 : run lib fs input sf output res = (none, fs1)) :
    ∃ d, run lib fs1 input sf output res = (none, fs1.write output d)
      ∧ fs1.read output = some d := by
  unfold run at h1
  cases hrd : fs.read input with
  | none =>
    rw [hrd] at h1
    dsimp only at h1
    simp at h1
  | some dt =>
    cases dt with
    | raw s =>
      rw [hrd] at h1
      dsimp only at h1
      simp at h1
    | geo fc =>
      rw [hrd] at h1
      dsimp only at h1
      rcases hc : pipelineCore lib fc sf res with e | outFc <;>
        rw [hc] at h1 <;> dsimp only at h1
      · simp at h1
      · have hfs1 : fs1 = fs.write output (FileData.geo outFc) := by
          have h2 := congrArg Prod.snd h1
          simpa using h2.symm
        refine ⟨FileData.geo outFc, ?_, ?_⟩
        · have hrd1 : fs1.read input = some (FileData.geo fc) := by
            rw [hfs1, read_write_ne _ _ _ _ hne, hrd]
          rw [run_read_geo lib fs1 input sf output res fc hrd1, hc]
        · rw [hfs1]
          exact read_write_self _ _ _

/-- Witness: a successful run followed by a second identical run. -/
theorem run_idempotent_witness :
    ∃ d, run lib0 (fsOnePoint.write "out.geojson" (FileData.geo outOnePoint))
          "in.geojson" "score" "out.geojson" 10
        = (none, ((fsOnePoint.write "out.geojson" (FileData.geo outOnePoint)).write
            "out.geojson" d))
      ∧ (fsOnePoint.write "out.geojson" (FileData.geo outOnePoint)).read "out.geojson"
          = some d :=
  run_idempotent lib0 fsOnePoint "in.geojson" "score" "out.geojson" 10
    (fsOnePoint.write "out.geojson" (FileData.geo outOnePoint))
    (by decide)
    (by
      have h1 : run lib0 fsOnePoint "in.geojson" "score" "out.geojson" 10
          = (none, fsOnePoint.write "out.geojson"
              (FileData.geo (outputCollection lib0 "score"
                (aggregateMean [("cell0", 2)])))) := rfl
      rw [h1]
      simp [aggregateMean, meanQ, groupScores, outputCollection, outOnePoint, lib0])

end PointsToH3
